import Mathlib

/-
Verification of the Adikara IoT dashboard (dashboard.py) against its
design specification.  The Python program is shallowly embedded below:
pure fragments become Lean functions, the HTTP and MQTT effects are
abstracted by passing the backend response (or the configuration) as an
explicit argument and recording the emitted actions, and Python
exceptions become the error side of Except.
-/

namespace Adikara

/-- A row of the sensor_log table as selected by every dashboard query
(select=id,ts,temperature,humidity,soil,pump_status).  The ts column is
modelled as an integer carrying the total order of the ISO timestamps. -/
structure SensorRow where
  id : Nat
  ts : Int
  temperature : Int
  humidity : Int
  soil : Int
  pump_status : String
  deriving Repr, DecidableEq

/-- Exception values raised by dashboard.py.  The code only ever raises the
generic RuntimeError with a message (lines 63 and 113).  The remoteError
shape is the typed failure the specification prescribes for the gateway;
it is declared here solely so the shape the code produces can be compared
with the shape the specification demands. -/
inductive PyErr where
  | runtimeError (msg : String)
  | remoteError (status : Nat) (body : String)
  deriving Repr, DecidableEq

/-- An HTTP response from the Supabase REST interface: status code, body
text, and the decoded JSON row list. -/
structure HttpResponse where
  status : Nat
  body : String
  json : List SensorRow
  deriving Repr, DecidableEq

/-- requests.Response.ok: true exactly when the status code is below 400. -/
def HttpResponse.ok (r : HttpResponse) : Bool := r.status < 400

/-- supabase_select (dashboard.py lines 55-64), abstracted over the HTTP
response the backend returns: a non-ok response raises
RuntimeError("Supabase HTTP <status>: <text>"); an ok response yields the
decoded JSON rows. -/
def supabase_select (r : HttpResponse) : Except PyErr (List SensorRow) :=
  if !r.ok then
    .error (.runtimeError ("Supabase HTTP " ++ toString r.status ++ ": " ++ r.body))
  else
    .ok r.json

/-- Discriminator: does this result carry the typed remoteError failure? -/
def isRemoteError : Except PyErr (List SensorRow) → Bool
  | .error (.remoteError _ _) => true
  | _ => false

/-- Ascending order on the ts column (PostgREST order=ts.asc). -/
def tsLe (a b : SensorRow) : Prop := a.ts ≤ b.ts

/-- Descending order on the ts column (PostgREST order=ts.desc). -/
def tsGe (a b : SensorRow) : Prop := b.ts ≤ a.ts

instance : DecidableRel tsLe :=
  fun a b => inferInstanceAs (Decidable (a.ts ≤ b.ts))

instance : DecidableRel tsGe :=
  fun a b => inferInstanceAs (Decidable (b.ts ≤ a.ts))

instance : IsTotal SensorRow tsLe := ⟨fun a b => Int.le_total a.ts b.ts⟩

instance : IsTrans SensorRow tsLe := ⟨fun _ _ _ hab hbc => le_trans hab hbc⟩

instance : IsTotal SensorRow tsGe := ⟨fun a b => Int.le_total b.ts a.ts⟩

instance : IsTrans SensorRow tsGe := ⟨fun _ _ _ hab hbc => le_trans hbc hab⟩

/-- Semantics of the PostgREST query parameters used by dashboard.py
against a backend table state db: an optional ts=gte filter, ordering by
ts ascending or descending, and a row limit. -/
def queryRows (db : List SensorRow) (since : Option Int) (desc : Bool) (lim : Nat) :
    List SensorRow :=
  let filtered := match since with
    | some s => db.filter (fun (r : SensorRow) => s ≤ r.ts)
    | none => db
  let sorted := if desc then List.insertionSort tsGe filtered else List.insertionSort tsLe filtered
  sorted.take lim

/-- get_latest_sensor (dashboard.py lines 66-73) on the success path,
with the transport abstracted by interpreting the query (order=ts.desc,
limit=1) against the backend table state: returns rows[0] if rows else
None. -/
def get_latest_sensor (db : List SensorRow) : Option SensorRow :=
  (queryRows db none true 1).head?

/-- get_sensor_history (dashboard.py lines 75-106) on the success path,
with the transport abstracted by interpreting both queries against the
backend table state.  The windowed query filters ts at or above now minus
the window, orders ascending, limit 5000; if it is empty the fallback
fetches the most recent 800 rows descending and reverses them; finally the
frame is sorted ascending by ts (df.sort_values). -/
def get_sensor_history (db : List SensorRow) (now hours : Int) : List SensorRow :=
  let windowRows := queryRows db (some (now - hours)) false 5000
  let rows := if windowRows.isEmpty then (queryRows db none true 800).reverse else windowRows
  List.insertionSort tsLe rows

/-- The HTTP responses the backend returns for the three query shapes a
single render flow can issue: the latest-record query, the windowed
history query, and the fallback history query. -/
structure Backend where
  latestResp : HttpResponse
  windowResp : HttpResponse
  fallbackResp : HttpResponse
  deriving Repr, DecidableEq

/-- get_latest_sensor (dashboard.py lines 66-73) at the exception level:
the supabase_select failure, if any, propagates uncaught. -/
def get_latest_sensorE (b : Backend) : Except PyErr (Option SensorRow) := do
  let rows ← supabase_select b.latestResp
  pure rows.head?

/-- get_sensor_history (dashboard.py lines 75-106) at the exception
level: either supabase_select failure propagates uncaught; an empty
windowed result falls back to the reversed descending fetch; the frame is
sorted ascending by ts. -/
def get_sensor_historyE (b : Backend) : Except PyErr (List SensorRow) := do
  let rows ← supabase_select b.windowResp
  let rows2 ←
    if rows.isEmpty then do
      let fb ← supabase_select b.fallbackResp
      pure fb.reverse
    else
      pure rows
  pure (List.insertionSort tsLe rows2)

/-- Abstraction of the Streamlit output elements the main flow emits. -/
inductive Widget where
  | metric (label value : String)
  | info (msg : String)
  | chart (title : String)
  | dataframe
  deriving Repr, DecidableEq

/-- The KPI section (dashboard.py lines 181-189): five metrics when a
latest row exists, otherwise the no-data notice. -/
def kpiSection (latest : Option SensorRow) : List Widget :=
  match latest with
  | some r =>
      [ .metric "Suhu (°C)" (toString r.temperature),
        .metric "Humidity (%)" (toString r.humidity),
        .metric "Soil (%)" (toString r.soil),
        .metric "Pompa" r.pump_status,
        .metric "Update Terakhir" (toString r.ts) ]
  | none => [ .info "Belum ada data sensor." ]

/-- The module-level render flow after the sidebar (dashboard.py lines
178-306): load the latest row, render the KPI section, load the history
frame, then either stop with a notice when the frame is empty or render
the overview chart, the three per-sensor charts, and the table.  No
exception handler exists anywhere on this path, so any gateway failure
propagates out of the whole flow. -/
def renderMain (b : Backend) : Except PyErr (List Widget) := do
  let latest ← get_latest_sensorE b
  let kpis := kpiSection latest
  let dfs ← get_sensor_historyE b
  if dfs.isEmpty then
    pure (kpis ++ [.info "Data histori sensor kosong."])
  else
    pure (kpis ++ [.chart "Overview", .chart "Temperature", .chart "Humidity",
                   .chart "Soil Moisture", .dataframe])

/-- The widgets actually shown to the operator: an uncaught exception
renders none of them. -/
def renderedWidgets : Except PyErr (List Widget) → List Widget
  | .ok ws => ws
  | .error _ => []

/-- The MQTT settings read from Streamlit secrets (already stripped):
broker host, user, password, port, and the command topic. -/
structure MqttConfig where
  broker : String
  user : String
  pass : String
  port : Nat
  topic : String
  deriving Repr, DecidableEq

/-- Observable MQTT side effects of mqtt_publish_pump, in order. -/
inductive MqttAction where
  | connect (broker : String) (port : Nat)
  | publish (topic payload : String)
  | disconnect
  deriving Repr, DecidableEq

/-- MQTT_OK (dashboard.py line 43): all([MQTT_BROKER, MQTT_USER, MQTT_PASS]),
that is, the broker, user and password strings are all non-empty.  The
topic is not part of the check. -/
def MQTT_OK (c : MqttConfig) : Bool :=
  !(c.broker == "") && !(c.user == "") && !(c.pass == "")

/-- mqtt_publish_pump (dashboard.py lines 111-124): raise
RuntimeError("MQTT belum lengkap di Secrets.") when MQTT_OK is false,
otherwise connect, publish the command string verbatim to the configured
topic, and disconnect.  The emitted transport actions are recorded in
order. -/
def mqtt_publish_pump (c : MqttConfig) (cmd : String) : Except PyErr (List MqttAction) :=
  if !(MQTT_OK c) then
    .error (.runtimeError "MQTT belum lengkap di Secrets.")
  else
    .ok [.connect c.broker c.port, .publish c.topic cmd, .disconnect]

/-- Whether the run attempted a transport connection. -/
def connectionAttempted : Except PyErr (List MqttAction) → Bool
  | .ok tr => tr.any fun a => match a with | .connect _ _ => true | _ => false
  | .error _ => false

/-- Cache keys of the two cached query shapes: the latest-record query and
the windowed history query for a given hours argument. -/
inductive QueryKey where
  | latest
  | history (hours : Int)
  deriving Repr, DecidableEq

/-- The time-to-live each cached function declares (dashboard.py lines 66
and 75): 3 time units for the latest-record query, 6 for the history
query. -/
def keyTtl : QueryKey → Nat
  | .latest => 3
  | .history _ => 6

/-- Modelled from the spec: the entry stored by the caching decorator for
one key — the payload together with the time it was fetched.  The cache
itself is implemented by the external dashboarding library (st.cache_data),
not by code in src, so its read semantics is taken from the specification:
serve the stored payload while its age is below the time-to-live, refetch
otherwise. -/
structure CacheEntry (α : Type) where
  fetchedAt : Nat
  payload : α
  deriving Repr, DecidableEq

/-- A cache state: key-entry associations, most recent first. -/
abbrev Cache (κ α : Type) := List (κ × CacheEntry α)

/-- Lookup of the most recently stored entry for a key. -/
def cacheLookup {κ α : Type} [DecidableEq κ] : Cache κ α → κ → Option (CacheEntry α)
  | [], _ => none
  | (k0, e) :: rest, k => if k = k0 then some e else cacheLookup rest k

/-- Outcome of one cached read: the payload served, the cache state after
the read, and how many fresh gateway fetches the read performed. -/
structure ReadResult (κ α : Type) where
  payload : α
  cache : Cache κ α
  fetches : Nat
  deriving Repr, DecidableEq

/-- Modelled from the spec: one read through the time-bounded cache at
time now with time-to-live ttl, where fetch is the value a fresh gateway
call would produce.  A stored entry younger than ttl is served with no
fetch; otherwise exactly one fresh fetch is performed and stored with
fetchedAt updated to now. -/
def cacheRead {κ α : Type} [DecidableEq κ] (c : Cache κ α) (k : κ) (now ttl : Nat)
    (fetch : α) : ReadResult κ α :=
  match cacheLookup c k with
  | some e =>
      if now - e.fetchedAt < ttl then ⟨e.payload, c, 0⟩
      else ⟨fetch, (k, ⟨now, fetch⟩) :: c, 1⟩
  | none => ⟨fetch, (k, ⟨now, fetch⟩) :: c, 1⟩

/-- Modelled from the spec: st.cache_data.clear(), invoked by the
refresh-now button (dashboard.py lines 151-153), discards every cache
entry unconditionally. -/
def clearCache {κ α : Type} (_c : Cache κ α) : Cache κ α := []

/-- Modelled from the spec: the threshold alert rule over the soil
moisture value — below 30 is dry, above 80 is very moist, otherwise
normal.  No alert rule appears in src/dashboard.py; the rule is taken
from the specification text. -/
def classify_soil (soil : Int) : String :=
  if soil < 30 then "dry"
  else if 80 < soil then "very moist"
  else "normal"

/-- A 401 backend response with a body, as in the specification example. -/
def resp401 : HttpResponse := ⟨401, "unauthorized", []⟩

/-- A backend whose latest-record query fails with HTTP 401. -/
def backendLatest401 : Backend := ⟨⟨401, "denied", []⟩, ⟨200, "", []⟩, ⟨200, "", []⟩⟩

/-- A backend that answers every query successfully with zero rows. -/
def backendAllEmpty : Backend := ⟨⟨200, "", []⟩, ⟨200, "", []⟩, ⟨200, "", []⟩⟩

/-- An MQTT configuration with broker, user and password present but an
empty destination topic. -/
def mqttCfgNoTopic : MqttConfig := ⟨"broker.example", "user1", "pw", 8883, ""⟩

/-- A complete MQTT configuration. -/
def mqttCfgFull : MqttConfig :=
  ⟨"broker.example", "user1", "pw", 8883, "adikara-iot/actuator/pump_cmd"⟩

/-- An MQTT configuration with an empty broker host. -/
def mqttCfgNoBroker : MqttConfig := ⟨"", "user1", "pw", 8883, "adikara-iot/actuator/pump_cmd"⟩

/-- A two-row backend table state, newest row second. -/
def dbTwo : List SensorRow :=
  [⟨1, 10, 20, 50, 40, "OFF"⟩, ⟨2, 30, 21, 51, 41, "ON"⟩]

/-- A one-row backend table state whose only row is old. -/
def dbOld : List SensorRow := [⟨1, 0, 20, 50, 40, "OFF"⟩]

/-- Bind on Except propagates an error unchanged. -/
theorem except_bind_error {ε α β : Type} (e : ε) (f : α → Except ε β) :
    (Except.error e >>= f) = Except.error e := rfl

/-- Bind on Except continues a success with the continuation. -/
theorem except_bind_ok {ε α β : Type} (a : α) (f : α → Except ε β) :
    (Except.ok a >>= f) = f a := rfl

/-- Map on Except propagates an error unchanged. -/
theorem except_map_error {ε α β : Type} (e : ε) (f : α → β) :
    (f <$> (Except.error e : Except ε α)) = Except.error e := rfl

/-- Claim C6: the alert rule classifies soil moisture 25 as dry (below
30), 85 as very moist (above 80), and 50 as normal. -/
theorem classify_soil_cases :
    classify_soil 25 = "dry" ∧ classify_soil 85 = "very moist" ∧ classify_soil 50 = "normal" := by
  decide

/-- Claim C4 counterexample: on a 401 response the select operation fails
with the generic RuntimeError (message "Supabase HTTP 401: unauthorized"),
not with the typed remoteError failure the claim demands. -/
theorem supabase_select_401_is_generic :
    supabase_select resp401 =
      .error (.runtimeError "Supabase HTTP 401: unauthorized") ∧
    isRemoteError (supabase_select resp401) = false := by
  constructor <;> rfl

/-- Claim C4 (amended): on any non-success response, supabase_select
fails by raising the generic RuntimeError whose message carries the HTTP
status code and the response body. -/
theorem supabase_select_error_shape (r : HttpResponse) (h : r.ok = false) :
    supabase_select r =
      .error (.runtimeError ("Supabase HTTP " ++ toString r.status ++ ": " ++ r.body)) := by
  simp [supabase_select, h]

/-- Claim C4 witness: concrete instance of the amended statement at the
401 response. -/
theorem supabase_select_error_shape_witness :
    supabase_select resp401 =
      .error (.runtimeError ("Supabase HTTP " ++ toString (401 : Nat) ++ ": " ++ "unauthorized")) := by
  exact supabase_select_error_shape resp401 (by decide)

/-- Claim C5 counterexample: with broker, user and password present but
an empty destination topic, mqtt_publish_pump does not fail: it attempts
the connection and publishes to the empty topic. -/
theorem mqtt_topic_not_checked :
    mqttCfgNoTopic.topic = "" ∧
    mqtt_publish_pump mqttCfgNoTopic "ON" =
      .ok [.connect "broker.example" 8883, .publish "" "ON", .disconnect] ∧
    connectionAttempted (mqtt_publish_pump mqttCfgNoTopic "ON") = true := by
  refine ⟨rfl, rfl, rfl⟩

/-- Claim C5 (amended): when any of broker, user or password is empty,
mqtt_publish_pump fails immediately with the RuntimeError and no
connection attempt is made; the destination topic is not part of the
check. -/
theorem mqtt_publish_pump_precheck (c : MqttConfig) (cmd : String)
    (h : c.broker = "" ∨ c.user = "" ∨ c.pass = "") :
    mqtt_publish_pump c cmd = .error (.runtimeError "MQTT belum lengkap di Secrets.") ∧
    connectionAttempted (mqtt_publish_pump c cmd) = false := by
  have hok : MQTT_OK c = false := by
    rcases h with h | h | h <;> simp [MQTT_OK, h]
  constructor
  · simp [mqtt_publish_pump, hok]
  · simp [mqtt_publish_pump, hok, connectionAttempted]

/-- Claim C5 witness: concrete instance of the amended statement at a
configuration with an empty broker. -/
theorem mqtt_publish_pump_precheck_witness :
    mqtt_publish_pump mqttCfgNoBroker "ON" =
      .error (.runtimeError "MQTT belum lengkap di Secrets.") ∧
    connectionAttempted (mqtt_publish_pump mqttCfgNoBroker "ON") = false := by
  exact mqtt_publish_pump_precheck mqttCfgNoBroker "ON" (Or.inl rfl)

/-- Claim C10: mqtt_publish_pump validates nothing about its command
argument: for every string, once the broker, user and password are
present, it connects, publishes the string verbatim to the configured
topic, and disconnects. -/
theorem mqtt_publish_pump_no_validation (c : MqttConfig) (cmd : String)
    (h : MQTT_OK c = true) :
    mqtt_publish_pump c cmd =
      .ok [.connect c.broker c.port, .publish c.topic cmd, .disconnect] := by
  simp [mqtt_publish_pump, h]

/-- Claim C10 witness: a string outside ON, OFF and AUTO is published
verbatim. -/
theorem mqtt_publish_pump_no_validation_witness :
    mqtt_publish_pump mqttCfgFull "FOOBAR" =
      .ok [.connect "broker.example" 8883,
           .publish "adikara-iot/actuator/pump_cmd" "FOOBAR", .disconnect] := by
  exact mqtt_publish_pump_no_validation mqttCfgFull "FOOBAR" rfl

/-- Claim C1: for every cache key, a read at time t after a prior fetch
at time t0 with the time-to-live the key declares serves the cached
payload with no fetch exactly when the age t minus t0 is below the
time-to-live; otherwise the read performs exactly one fresh fetch, serves
the fresh payload, and stores it fetched at t.  In particular a payload
whose age reaches its time-to-live is never served. -/
theorem cache_read_ttl_iff {α : Type} (k : QueryKey) (t0 t : Nat) (rest : Cache QueryKey α)
    (v fresh : α) (_hle : t0 ≤ t) :
    (((cacheRead ((k, ⟨t0, v⟩) :: rest) k t (keyTtl k) fresh).fetches = 0 ∧
      (cacheRead ((k, ⟨t0, v⟩) :: rest) k t (keyTtl k) fresh).payload = v) ↔
        t - t0 < keyTtl k) ∧
    (keyTtl k ≤ t - t0 →
      cacheRead ((k, ⟨t0, v⟩) :: rest) k t (keyTtl k) fresh =
        ⟨fresh, (k, ⟨t, fresh⟩) :: (k, ⟨t0, v⟩) :: rest, 1⟩) := by
  by_cases hd : t - t0 < keyTtl k <;>
    simp [cacheRead, cacheLookup, hd]

/-- Claim C1 witness: concrete instances on the latest-record key with
ttl 3 — a read 1 unit after the fetch is served from the cache, a read 5
units after it triggers exactly one fresh fetch. -/
theorem cache_read_ttl_iff_witness :
    (cacheRead [(QueryKey.latest, ⟨0, (7 : Nat)⟩)] QueryKey.latest 1 (keyTtl QueryKey.latest) 9).fetches = 0 ∧
    (cacheRead [(QueryKey.latest, ⟨0, (7 : Nat)⟩)] QueryKey.latest 1 (keyTtl QueryKey.latest) 9).payload = 7 ∧
    (cacheRead [(QueryKey.latest, ⟨0, (7 : Nat)⟩)] QueryKey.latest 5 (keyTtl QueryKey.latest) 9).fetches = 1 ∧
    (cacheRead [(QueryKey.latest, ⟨0, (7 : Nat)⟩)] QueryKey.latest 5 (keyTtl QueryKey.latest) 9).payload = 9 := by
  have h1 := (cache_read_ttl_iff QueryKey.latest 0 1 ([] : Cache QueryKey Nat) 7 9
    (by decide)).1.mpr (by decide)
  have h2 := (cache_read_ttl_iff QueryKey.latest 0 5 ([] : Cache QueryKey Nat) 7 9
    (by decide)).2 (by decide)
  refine ⟨h1.1, h1.2, ?_, ?_⟩ <;> rw [h2]

/-- Claim C2: the explicit refresh-now action clears every cache entry
unconditionally, so the next read for any key performs exactly one fresh
fetch and serves the fresh payload. -/
theorem refresh_clears_cache {κ α : Type} [DecidableEq κ] (c : Cache κ α) (k : κ)
    (t d : Nat) (f : α) :
    clearCache c = ([] : Cache κ α) ∧
    cacheRead (clearCache c) k t d f = ⟨f, [(k, ⟨t, f⟩)], 1⟩ := by
  exact ⟨rfl, rfl⟩

/-- Claim C2 witness: clearing a nonempty cache and reading the history
key afterwards performs a fresh fetch. -/
theorem refresh_clears_cache_witness :
    clearCache [(QueryKey.latest, ⟨0, (7 : Nat)⟩)] = ([] : Cache QueryKey Nat) ∧
    cacheRead (clearCache [(QueryKey.latest, ⟨0, (7 : Nat)⟩)]) (QueryKey.history 24) 10 6 5 =
      ⟨5, [(QueryKey.history 24, ⟨10, 5⟩)], 1⟩ := by
  exact refresh_clears_cache [(QueryKey.latest, ⟨0, (7 : Nat)⟩)] (QueryKey.history 24) 10 6 5

/-- Claim C8: when the backend answers the latest-record query with an
ok response holding zero rows, get_latest_sensor returns None without any
exception and the KPI section renders the no-data notice. -/
theorem kpi_no_data (b : Backend) (hok : b.latestResp.ok = true)
    (hempty : b.latestResp.json = []) :
    get_latest_sensorE b = .ok none ∧
    kpiSection none = [Widget.info "Belum ada data sensor."] := by
  constructor
  · simp [get_latest_sensorE, supabase_select, hok, hempty]
  · rfl

/-- Claim C8 witness: the all-empty backend instance. -/
theorem kpi_no_data_witness :
    get_latest_sensorE backendAllEmpty = .ok none ∧
    kpiSection none = [Widget.info "Belum ada data sensor."] := by
  exact kpi_no_data backendAllEmpty rfl rfl

/-- Claim C9: the latest-record query orders descending by ts with limit
1, so get_latest_sensor returns None exactly when the backend table is
empty, and otherwise returns a single record of the table carrying the
maximum timestamp. -/
theorem get_latest_sensor_max (db : List SensorRow) :
    (get_latest_sensor db = none ↔ db = []) ∧
    (∀ r, get_latest_sensor db = some r → r ∈ db ∧ ∀ x, x ∈ db → x.ts ≤ r.ts) := by
  have hperm : List.Perm (List.insertionSort tsGe db) db := List.perm_insertionSort tsGe db
  have hsorted : List.Pairwise tsGe (List.insertionSort tsGe db) :=
    List.sorted_insertionSort tsGe db
  cases hms : List.insertionSort tsGe db with
  | nil =>
      have hdb : db = [] := by
        rw [hms] at hperm
        exact hperm.symm.eq_nil
      subst hdb
      constructor
      · simp [get_latest_sensor, queryRows]
      · intro r hr
        simp [get_latest_sensor, queryRows] at hr
  | cons a l =>
      rw [hms] at hperm hsorted
      have hval : get_latest_sensor db = some a := by
        simp [get_latest_sensor, queryRows, hms]
      have hmem : a ∈ db := hperm.mem_iff.mp (List.mem_cons_self a l)
      constructor
      · constructor
        · intro hnone
          rw [hval] at hnone
          exact absurd hnone (by simp)
        · intro hdb
          subst hdb
          exact absurd hmem (by simp)
      · intro r hr
        rw [hval] at hr
        have hra : a = r := by injection hr
        subst hra
        refine ⟨hmem, ?_⟩
        intro x hx
        have hx2 : x ∈ a :: l := hperm.mem_iff.mpr hx
        rcases List.mem_cons.mp hx2 with hxa | hxl
        · subst hxa; exact le_refl _
        · exact (List.pairwise_cons.mp hsorted).1 x hxl

/-- Claim C9 witness: on a two-row table the newest row is returned and
the older timestamp is below it. -/
theorem get_latest_sensor_max_witness :
    (⟨2, 30, 21, 51, 41, "ON"⟩ : SensorRow) ∈ dbTwo ∧
    (⟨1, 10, 20, 50, 40, "OFF"⟩ : SensorRow).ts ≤ (⟨2, 30, 21, 51, 41, "ON"⟩ : SensorRow).ts := by
  have h := (get_latest_sensor_max dbTwo).2 ⟨2, 30, 21, 51, 41, "ON"⟩ (by decide)
  exact ⟨h.1, h.2 ⟨1, 10, 20, 50, 40, "OFF"⟩ (by decide)⟩

/-- Claim C3: when the windowed history query returns zero rows,
get_sensor_history falls back to the most recent 800 rows fetched
descending and returns exactly their reversal, which is in ascending
timestamp order. -/
theorem history_fallback (db : List SensorRow) (now hours : Int)
    (h : queryRows db (some (now - hours)) false 5000 = []) :
    get_sensor_history db now hours = (queryRows db none true 800).reverse ∧
    List.Pairwise (fun a b : SensorRow => a.ts ≤ b.ts) (get_sensor_history db now hours) := by
  have hsorted : List.Pairwise tsGe ((List.insertionSort tsGe db).take 800) :=
    List.Pairwise.sublist (List.take_sublist 800 _) (List.sorted_insertionSort tsGe db)
  have hrev : List.Pairwise tsLe (((List.insertionSort tsGe db).take 800).reverse) := by
    rw [List.pairwise_reverse]
    exact hsorted
  have hunfold : get_sensor_history db now hours =
      List.insertionSort tsLe ((queryRows db none true 800).reverse) := by
    simp [get_sensor_history, h]
  have hid : List.insertionSort tsLe ((queryRows db none true 800).reverse) =
      (queryRows db none true 800).reverse :=
    List.Sorted.insertionSort_eq hrev
  refine ⟨?_, ?_⟩
  · rw [hunfold, hid]
  · rw [hunfold, hid]
    exact hrev.imp (fun hab => hab)

/-- Claim C3 witness: a table whose only row is far older than the window
still yields that row, in ascending order, through the fallback fetch. -/
theorem history_fallback_witness :
    get_sensor_history dbOld 100 1 = (queryRows dbOld none true 800).reverse ∧
    List.Pairwise (fun a b : SensorRow => a.ts ≤ b.ts) (get_sensor_history dbOld 100 1) := by
  exact history_fallback dbOld 100 1 (by decide)

/-- Claim C7 counterexample: when the latest-record query fails with HTTP
401, the failure is not converted into a section-scoped notice: the whole
render flow aborts with the uncaught RuntimeError and renders no widget
at all. -/
theorem render_aborts_on_gateway_failure :
    renderMain backendLatest401 = .error (.runtimeError "Supabase HTTP 401: denied") ∧
    renderedWidgets (renderMain backendLatest401) = [] := by
  constructor <;> rfl

/-- Claim C7 (amended): gateway failures are not caught anywhere in the
render flow: a failing latest-record query, or a failing windowed query
after a successful latest-record query, propagates its RuntimeError out
of renderMain and aborts rendering of the entire view. -/
theorem gateway_failure_uncaught (b : Backend) :
    (b.latestResp.ok = false →
      renderMain b = .error (.runtimeError
        ("Supabase HTTP " ++ toString b.latestResp.status ++ ": " ++ b.latestResp.body))) ∧
    (b.latestResp.ok = true → b.windowResp.ok = false →
      renderMain b = .error (.runtimeError
        ("Supabase HTTP " ++ toString b.windowResp.status ++ ": " ++ b.windowResp.body))) := by
  constructor
  · intro h
    simp [renderMain, get_latest_sensorE, get_sensor_historyE, supabase_select, h,
      except_bind_error, except_bind_ok, except_map_error]
  · intro h1 h2
    simp [renderMain, get_latest_sensorE, get_sensor_historyE, supabase_select, h1, h2,
      except_bind_error, except_bind_ok, except_map_error]

/-- Claim C7 witness: concrete instance of the amended statement at a
backend whose latest-record query fails with HTTP 401. -/
theorem gateway_failure_uncaught_witness :
    renderMain backendLatest401 =
      .error (.runtimeError ("Supabase HTTP " ++ toString (401 : Nat) ++ ": " ++ "denied")) := by
  exact (gateway_failure_uncaught backendLatest401).1 (by decide)

end Adikara
